import Mathlib

/-!
Verification of the TrendClip managed-toolchain and media-transform pipeline.

The definitions below are a shallow embedding of `video_processor.py` and
`self_heal.py`.  Pure computations become Lean functions; the outcomes of
subprocess invocations, network downloads and filesystem reads appear as
explicit environment/oracle records.  `int(...)` truncation is `pyInt` and
integer `//` is `Int.fdiv`.

The ratio arithmetic of `calculate_crop_parameters` runs on Python floats
(IEEE-754 binary64).  It is embedded twice: `crop_from_dims_fp` threads
every float operation through `roundDouble`, binary64 round-to-nearest-even
over `ℚ` (with unbounded exponent, which agrees with binary64 at all the
magnitudes arising here — no overflow or subnormals — and under the proviso
that integer operands stay below `2^53`, where int→float conversion is
exact); `crop_from_dims` evaluates the same expressions in exact rational
arithmetic and serves as the idealization, used only where the two
evaluations provably coincide.
-/

namespace TrendClip

/-- Entry of the `streams` list of an ffprobe metadata dictionary, with the
fields `detect_aspect_ratio` reads: `codec_type`, and `width`/`height`
already converted by `int(stream.get(..., 0))` (a missing key is `0`). -/
structure StreamInfo where
  codec_type : String
  width : Int
  height : Int
deriving DecidableEq

/-- Parsed ffprobe JSON metadata, reduced to the `streams` list that
`detect_aspect_ratio` consumes (`video_info.get('streams', [])`). -/
structure VideoInfo where
  streams : List StreamInfo
deriving DecidableEq

/-- Condition of `video_processor.py:74-77`: the stream has
`codec_type == 'video'` and truthy (nonzero) `width` and `height`. -/
def is_video_with_dims (s : StreamInfo) : Bool :=
  s.codec_type == "video" && s.width != 0 && s.height != 0

/-- Loop body of `VideoProcessor.detect_aspect_ratio` (`video_processor.py:73-79`):
return the dimensions of the first qualifying stream, else the `16, 9`
default fallback. -/
def find_video_dims : List StreamInfo → Int × Int
  | [] => (16, 9)
  | s :: rest =>
    if is_video_with_dims s then (s.width, s.height) else find_video_dims rest

/-- `VideoProcessor.detect_aspect_ratio` (`video_processor.py:71-79`). -/
def detect_aspect_ratio (info : VideoInfo) : Int × Int :=
  find_video_dims info.streams

/-- Python's `int(...)` applied to a rational value: truncation toward zero. -/
def pyInt (q : ℚ) : Int :=
  if 0 ≤ q then ⌊q⌋ else ⌈q⌉

/-- The dictionary returned by `VideoProcessor.calculate_crop_parameters`
on its success path (`video_processor.py:109-118`). -/
structure Plan where
  crop_x : Int
  crop_y : Int
  crop_width : Int
  crop_height : Int
  original_width : Int
  original_height : Int
  target_width : Int
  target_height : Int
deriving DecidableEq

/-- Arithmetic core of `VideoProcessor.calculate_crop_parameters`
(`video_processor.py:87-118`) once the source dimensions are known,
evaluated in exact rational arithmetic — the idealization of the float
computation `crop_from_dims_fp` below, used only where the two provably
coincide.  `none` models the `ZeroDivisionError` raised when `target_h`
(or `height`) is zero, which the caller's `except` turns into the fallback
dictionary. -/
def crop_from_dims (width height target_w target_h : Int) : Option Plan :=
  if target_h = 0 ∨ height = 0 then none
  else
    let target_ratio : ℚ := (target_w : ℚ) / (target_h : ℚ)
    let current_ratio : ℚ := (width : ℚ) / (height : ℚ)
    if current_ratio > target_ratio then
      let new_width : Int := pyInt ((height : ℚ) * target_ratio)
      some { crop_x := Int.fdiv (width - new_width) 2
             crop_y := 0
             crop_width := new_width
             crop_height := height
             original_width := width
             original_height := height
             target_width := new_width
             target_height := height }
    else
      let new_height : Int := pyInt ((width : ℚ) / target_ratio)
      some { crop_x := 0
             crop_y := Int.fdiv (height - new_height) 2
             crop_width := width
             crop_height := new_height
             original_width := width
             original_height := height
             target_width := width
             target_height := new_height }

/-- Result of `calculate_crop_parameters`: either the computed dictionary or
the literal fallback dictionary of `video_processor.py:123-130`
(`crop_x = 0`, `crop_y = 0`, symbolic full-frame crop, target 1080×1920). -/
inductive PlanResult where
  | computed (p : Plan)
  | fallback
deriving DecidableEq

/-- The `target_width`/`target_height` entries of a `PlanResult`; the
fallback dictionary carries the fixed `1080`/`1920`. -/
def PlanResult.targetDims : PlanResult → Int × Int
  | .computed p => (p.target_width, p.target_height)
  | .fallback => (1080, 1920)

/-- `VideoProcessor.calculate_crop_parameters` (`video_processor.py:81-130`).
The metadata probe's outcome is passed in: `Except.error ()` models
`get_video_info` raising (ffprobe failure or malformed JSON), which the
surrounding `except Exception` maps to the fallback dictionary.  The target
aspect string is passed already split into `target_w : target_h`. -/
def calculate_crop_parameters (probe : Except Unit VideoInfo)
    (target_w target_h : Int) : PlanResult :=
  match probe with
  | .error _ => .fallback
  | .ok info =>
    let wh := detect_aspect_ratio info
    match crop_from_dims wh.1 wh.2 target_w target_h with
    | none => .fallback
    | some p => .computed p

/-- Spec-side restatement of the Geometry Planner formulae of spec §4.5,
written with exact rational `⌊·⌋` throughout, to be compared with the
source-derived `crop_from_dims`. -/
def planSpec (w h tw th : Int) : Plan :=
  if (w : ℚ) / (h : ℚ) > (tw : ℚ) / (th : ℚ) then
    let cw : Int := ⌊(h : ℚ) * ((tw : ℚ) / (th : ℚ))⌋
    { crop_x := ⌊((w : ℚ) - (cw : ℚ)) / 2⌋
      crop_y := 0
      crop_width := cw
      crop_height := h
      original_width := w
      original_height := h
      target_width := cw
      target_height := h }
  else
    let ch : Int := ⌊(w : ℚ) / ((tw : ℚ) / (th : ℚ))⌋
    { crop_x := 0
      crop_y := ⌊((h : ℚ) - (ch : ℚ)) / 2⌋
      crop_width := w
      crop_height := ch
      original_width := w
      original_height := h
      target_width := w
      target_height := ch }

/-- Rounding of a rational to the nearest integer, ties to even — the
rounding used by IEEE-754 binary64 arithmetic. -/
def roundHalfEven (x : ℚ) : Int :=
  let n := ⌊x⌋
  if x - n < 1/2 then n
  else if 1/2 < x - n then n + 1
  else if Even n then n else n + 1

/-- Correct rounding of a rational to IEEE-754 binary64 (53-bit mantissa,
round to nearest, ties to even), with unbounded exponent: the value is
scaled into `[2^52, 2^53)`, the mantissa rounded half-to-even, and scaled
back.  Overflow and subnormals never occur at the magnitudes appearing in
this development, so this agrees with Python float arithmetic there. -/
def roundDouble (q : ℚ) : ℚ :=
  if q = 0 then 0
  else if 0 < q then
    (roundHalfEven (q * (2 : ℚ) ^ (52 - Int.log 2 q)) : ℚ) * (2 : ℚ) ^ (Int.log 2 q - 52)
  else
    -((roundHalfEven (-q * (2 : ℚ) ^ (52 - Int.log 2 (-q))) : ℚ) *
      (2 : ℚ) ^ (Int.log 2 (-q) - 52))

/-- Float-faithful embedding of the arithmetic core of
`VideoProcessor.calculate_crop_parameters` (`video_processor.py:87-118`):
every Python float operation (`target_w / target_h`, `width / height`,
`height * target_ratio`, `width / target_ratio`) is rounded to binary64 by
`roundDouble`; the comparison and the integer operations (`int()`, `-`,
`//`) are exact, as in Python.  Faithful provided the integer operands are
below `2^53`, so that their int→float conversion introduces no further
rounding. -/
def crop_from_dims_fp (width height target_w target_h : Int) : Option Plan :=
  if target_h = 0 ∨ height = 0 then none
  else
    let target_ratio : ℚ := roundDouble ((target_w : ℚ) / (target_h : ℚ))
    let current_ratio : ℚ := roundDouble ((width : ℚ) / (height : ℚ))
    if current_ratio > target_ratio then
      let new_width : Int := pyInt (roundDouble ((height : ℚ) * target_ratio))
      some { crop_x := Int.fdiv (width - new_width) 2
             crop_y := 0
             crop_width := new_width
             crop_height := height
             original_width := width
             original_height := height
             target_width := new_width
             target_height := height }
    else
      let new_height : Int := pyInt (roundDouble ((width : ℚ) / target_ratio))
      some { crop_x := 0
             crop_y := Int.fdiv (height - new_height) 2
             crop_width := width
             crop_height := new_height
             original_width := width
             original_height := height
             target_width := width
             target_height := new_height }

/-- Observable outcome of the transcoder subprocess run inside
`VideoProcessor.process_to_9_16` and of the subsequent filesystem state:
exit status, existence and size of the output file, and the result of an
ffprobe metadata probe of the output file. -/
structure ExecOutcome where
  exitZero : Bool
  outputExists : Bool
  outputSize : Nat
  outputProbe : Except Unit VideoInfo

/-- `VideoProcessor.process_to_9_16` (`video_processor.py:144-189`):
`subprocess.run(..., check=True)` raising on a nonzero exit is caught and
yields `false`; on a zero exit the function returns whether the output file
exists (`video_processor.py:175-181`).  No other check is performed. -/
def process_to_9_16 (o : ExecOutcome) : Bool :=
  if o.exitZero then o.outputExists else false

/-- `VideoProcessor.validate_output` (`video_processor.py:253-274`): the file
must exist, be at least 1024 bytes, and a metadata probe of it must succeed
and list at least one stream with `codec_type == 'video'`; a probe exception
is caught and yields `false`. -/
def validate_output (o : ExecOutcome) : Bool :=
  if o.outputExists then
    if o.outputSize < 1024 then false
    else
      match o.outputProbe with
      | .error _ => false
      | .ok info => info.streams.any (fun s => s.codec_type == "video")
  else false

/-! Embedding of `self_heal.py`: the self-healing toolchain. -/

/-- Keys of the `self.tools` registry of `SelfHealToolchain.__init__`
(`self_heal.py:30-45`), in dictionary insertion order. -/
def registered_tools : List String := ["ffmpeg", "yt-dlp"]

/-- The `executable` entry of each registry value (`self_heal.py:36,43`). -/
def tool_executable : String → String
  | "ffmpeg" => "ffmpeg.exe"
  | "yt-dlp" => "yt-dlp.exe"
  | _ => ""

/-- Host-environment oracle for `self_heal.py`: outcomes of the subprocess
probes run by `check_tool_availability` and of the network-driven installers.
`toolsDirRuns name` is true when the tool's executable exists under the
managed tools directory and exits 0 on `--version` (`self_heal.py:134-143`);
`pathRuns name` is the analogous outcome for the bare executable name on the
system PATH (`self_heal.py:146-152`); `installFfmpegOk`/`installYtDlpOk` are
the boolean results of `install_ffmpeg`/`install_yt_dlp`
(`self_heal.py:156-234`), which already wrap every failure in `False`. -/
structure SysEnv where
  toolsDirRuns : String → Bool
  pathRuns : String → Bool
  installFfmpegOk : Bool
  installYtDlpOk : Bool

/-- `SelfHealToolchain.check_tool_availability` (`self_heal.py:125-154`):
unknown tools are rejected, then the managed tools directory is probed, then
the system PATH; the returned string is the resolved path (empty when
unavailable). -/
def check_tool_availability (env : SysEnv) (name : String) : Bool × String :=
  if name ∉ registered_tools then (false, "Unknown tool: " ++ name)
  else if env.toolsDirRuns name then (true, "tools/" ++ tool_executable name)
  else if env.pathRuns name then (true, tool_executable name)
  else (false, "")

/-- Observable step performed by `heal_tool`: a probe, or an installer
invocation (the only step that performs network I/O). -/
inductive HealStep where
  | probe (tool : String)
  | install (tool : String)
deriving DecidableEq

/-- `SelfHealToolchain.heal_tool` (`self_heal.py:236-253`), together with the
trace of probe/installer steps it performs: probe first; if available return
`True` at once; otherwise dispatch on the tool name to the matching
installer, and return `False` for an unknown name. -/
def heal_tool (env : SysEnv) (name : String) : Bool × List HealStep :=
  if (check_tool_availability env name).1 then (true, [.probe name])
  else if name = "ffmpeg" then (env.installFfmpegOk, [.probe name, .install "ffmpeg"])
  else if name = "yt-dlp" then (env.installYtDlpOk, [.probe name, .install "yt-dlp"])
  else (false, [.probe name])

/-- `SelfHealToolchain.heal_all_tools` (`self_heal.py:255-262`): build the
results dictionary by running `heal_tool` for every registered tool, in
registry order. -/
def heal_all_tools (env : SysEnv) : List (String × Bool) :=
  registered_tools.map (fun name => (name, (heal_tool env name).1))

/-! Embedding of the Checksum Verifier (`self_heal.py:59-78`).  The
filesystem is a partial map from paths to byte contents; the cryptographic
hash is an abstract incremental state machine `(hinit, hupdate, hexdigest)`
mirroring `hashlib.new` / `.update` / `.hexdigest`. -/

/-- Splitting of a byte string into the successive 4096-byte chunks produced
by `iter(lambda: f.read(4096), b"")` in `calculate_file_checksum`
(`self_heal.py:64`). -/
def chunkBytes : List Nat → List (List Nat)
  | [] => []
  | b :: bs => ((b :: bs).take 4096) :: chunkBytes ((b :: bs).drop 4096)
termination_by l => l.length
decreasing_by simp [List.length_drop]; omega

section Checksum

variable {σ : Type} (hinit : σ) (hupdate : σ → List Nat → σ) (hexdigest : σ → String)

/-- `SelfHealToolchain.calculate_file_checksum` (`self_heal.py:59-69`): an
unreadable file raises inside the `try`, is caught, and yields the empty
string; otherwise the file is streamed through the hash in 4096-byte chunks
and the result is returned as `algorithm ++ ":" ++ hex`. -/
def calculate_file_checksum (fs : String → Option (List Nat))
    (path : String) (algorithm : String := "sha256") : String :=
  match fs path with
  | none => ""
  | some content =>
    algorithm ++ ":" ++ hexdigest ((chunkBytes content).foldl hupdate hinit)

/-- `SelfHealToolchain.verify_checksum` (`self_heal.py:71-78`): an empty or
placeholder (`"sha256:..."`) expected checksum short-circuits to `True`
before any file access; otherwise the file's computed checksum is compared
with the expected one. -/
def verify_checksum (fs : String → Option (List Nat))
    (path expected : String) : Bool :=
  if expected = "" ∨ expected = "sha256:..." then true
  else calculate_file_checksum hinit hupdate hexdigest fs path == expected

end Checksum

/-! Helper lemmas. -/

theorem pyInt_of_nonneg {q : ℚ} (h : 0 ≤ q) : pyInt q = ⌊q⌋ := by
  unfold pyInt
  rw [if_pos h]

theorem fdiv_two_eq_floor (a : Int) : Int.fdiv a 2 = ⌊(a : ℚ) / 2⌋ := by
  rw [Int.fdiv_eq_ediv a (by norm_num)]
  have h := Rat.floor_intCast_div_natCast a 2
  rw [show (((2 : ℕ) : ℚ)) = (2 : ℚ) by norm_num] at h
  rw [show (((2 : ℕ) : ℤ)) = (2 : ℤ) by norm_num] at h
  exact h.symm

theorem Int_log2_eq {q : ℚ} {e : Int} (h0 : 0 < q)
    (h1 : (2 : ℚ) ^ e ≤ q) (h2 : q < (2 : ℚ) ^ (e + 1)) : Int.log 2 q = e := by
  have ha : ((2 : ℕ) : ℚ) ^ (Int.log 2 q) ≤ q := Int.zpow_log_le_self (by norm_num) h0
  have hb : q < ((2 : ℕ) : ℚ) ^ (Int.log 2 q + 1) := Int.lt_zpow_succ_log_self (by norm_num) q
  rw [show ((2 : ℕ) : ℚ) = (2 : ℚ) by norm_num] at ha hb
  have h3 := (zpow_lt_zpow_iff_right₀ (by norm_num : (1 : ℚ) < 2)).mp (lt_of_le_of_lt ha h2)
  have h4 := (zpow_lt_zpow_iff_right₀ (by norm_num : (1 : ℚ) < 2)).mp (lt_of_le_of_lt h1 hb)
  omega

theorem roundHalfEven_eq_floor {x : ℚ} {n : Int} (hn : ⌊x⌋ = n) (hf : x - n < 1/2) :
    roundHalfEven x = n := by
  unfold roundHalfEven
  rw [hn, if_pos hf]

theorem roundHalfEven_eq_floor_add_one {x : ℚ} {n : Int} (hn : ⌊x⌋ = n) (hf : 1/2 < x - n) :
    roundHalfEven x = n + 1 := by
  unfold roundHalfEven
  rw [hn, if_neg (by linarith), if_pos hf]

theorem roundDouble_eq {q : ℚ} {e m : Int} (h0 : 0 < q)
    (h1 : (2 : ℚ) ^ e ≤ q) (h2 : q < (2 : ℚ) ^ (e + 1))
    (hm : roundHalfEven (q * (2 : ℚ) ^ (52 - e)) = m) :
    roundDouble q = (m : ℚ) * (2 : ℚ) ^ (e - 52) := by
  unfold roundDouble
  rw [if_neg h0.ne', if_pos h0, Int_log2_eq h0 h1 h2, hm]

theorem roundDouble_eq_self_dyadic {q : ℚ} {e n : Int} (h0 : 0 < q)
    (h1 : (2 : ℚ) ^ e ≤ q) (h2 : q < (2 : ℚ) ^ (e + 1))
    (hn : q * (2 : ℚ) ^ (52 - e) = (n : ℚ)) : roundDouble q = q := by
  have hm : roundHalfEven (q * (2 : ℚ) ^ (52 - e)) = n := by
    rw [hn]
    exact roundHalfEven_eq_floor (Int.floor_intCast n) (by norm_num)
  rw [roundDouble_eq h0 h1 h2 hm, ← hn, mul_assoc,
    ← zpow_add₀ (by norm_num : (2 : ℚ) ≠ 0)]
  rw [show (52 - e) + (e - 52) = 0 by ring, zpow_zero, mul_one]

theorem roundDouble_nine_sixteenths : roundDouble (9/16 : ℚ) = 9/16 :=
  roundDouble_eq_self_dyadic (e := -1) (n := 5066549580791808)
    (by norm_num) (by norm_num) (by norm_num) (by norm_num)

theorem roundDouble_1080 : roundDouble (1080 : ℚ) = 1080 :=
  roundDouble_eq_self_dyadic (e := 10) (n := 4749890231992320)
    (by norm_num) (by norm_num) (by norm_num) (by norm_num)

theorem roundDouble_1920 : roundDouble (1920 : ℚ) = 1920 :=
  roundDouble_eq_self_dyadic (e := 10) (n := 8444249301319680)
    (by norm_num) (by norm_num) (by norm_num) (by norm_num)

theorem crop_from_dims_eq_planSpec {w h tw th : Int}
    (hw : 0 < w) (hh : 0 < h) (htw : 0 < tw) (hth : 0 < th) :
    crop_from_dims w h tw th = some (planSpec w h tw th) := by
  have hthq : (0 : ℚ) < (th : ℚ) := by exact_mod_cast hth
  have htwq : (0 : ℚ) < (tw : ℚ) := by exact_mod_cast htw
  have hhq : (0 : ℚ) < (h : ℚ) := by exact_mod_cast hh
  have hwq : (0 : ℚ) < (w : ℚ) := by exact_mod_cast hw
  have hratio : (0 : ℚ) < (tw : ℚ) / (th : ℚ) := div_pos htwq hthq
  simp only [crop_from_dims, planSpec]
  rw [if_neg (by push_neg; exact ⟨by omega, by omega⟩)]
  by_cases hc : (w : ℚ) / (h : ℚ) > (tw : ℚ) / (th : ℚ)
  · rw [if_pos hc, if_pos hc]
    rw [pyInt_of_nonneg (le_of_lt (mul_pos hhq hratio))]
    rw [fdiv_two_eq_floor]
    push_cast
    rfl
  · rw [if_neg hc, if_neg hc]
    rw [pyInt_of_nonneg (le_of_lt (div_pos hwq hratio))]
    rw [fdiv_two_eq_floor]
    push_cast
    rfl

/-! Claim theorems. -/

theorem crop_fp_eq_planSpec_of_exact (w h tw th : Int)
    (hw : 0 < w) (hh : 0 < h) (htw : 0 < tw) (hth : 0 < th)
    (e1 : roundDouble ((tw : ℚ) / (th : ℚ)) = (tw : ℚ) / (th : ℚ))
    (e2 : roundDouble ((w : ℚ) / (h : ℚ)) = (w : ℚ) / (h : ℚ))
    (e3 : roundDouble ((h : ℚ) * ((tw : ℚ) / (th : ℚ))) = (h : ℚ) * ((tw : ℚ) / (th : ℚ)))
    (e4 : roundDouble ((w : ℚ) / ((tw : ℚ) / (th : ℚ))) = (w : ℚ) / ((tw : ℚ) / (th : ℚ))) :
    crop_from_dims_fp w h tw th = some (planSpec w h tw th) := by
  have heq : crop_from_dims_fp w h tw th = crop_from_dims w h tw th := by
    simp only [crop_from_dims_fp, crop_from_dims, e1, e2, e3, e4]
  rw [heq]
  exact crop_from_dims_eq_planSpec hw hh htw hth

/-- C1 counterexample: at source 100×49 with target aspect `1:49` the float
program computes `int(49 * (1/49)) = int(0.9999999999999999) = 0`, yielding
`crop_width = 0`, `crop_x = 50`, while the spec's exact floor formulae give
`crop_width = 1`, `crop_x = 49` — so the claimed equality fails at this
valid positive-integer target. -/
theorem crop_fp_deviates_from_spec_at_target_1_49 :
    crop_from_dims_fp 100 49 1 49 =
      some { crop_x := 50, crop_y := 0, crop_width := 0, crop_height := 49,
             original_width := 100, original_height := 49,
             target_width := 0, target_height := 49 } ∧
    (planSpec 100 49 1 49).crop_width = 1 ∧ (planSpec 100 49 1 49).crop_x = 49 ∧
    crop_from_dims_fp 100 49 1 49 ≠ some (planSpec 100 49 1 49) := by
  have hr1 : roundDouble (((1 : Int) : ℚ) / ((49 : Int) : ℚ)) =
      5882252574524729 / 288230376151711744 := by
    rw [show (((1 : Int) : ℚ) / ((49 : Int) : ℚ)) = (1/49 : ℚ) by norm_num]
    have hm1 : roundHalfEven ((1/49 : ℚ) * (2 : ℚ) ^ ((52 : ℤ) - -6)) =
        5882252574524729 := by
      rw [show ((1/49 : ℚ) * (2 : ℚ) ^ ((52 : ℤ) - -6)) =
        (288230376151711744/49 : ℚ) by norm_num]
      exact roundHalfEven_eq_floor (Int.floor_eq_iff.mpr (by norm_num)) (by norm_num)
    rw [roundDouble_eq (e := -6) (by norm_num) (by norm_num) (by norm_num) hm1]
    norm_num
  have hr2 : roundDouble (((100 : Int) : ℚ) / ((49 : Int) : ℚ)) =
      4595509823847445 / 2251799813685248 := by
    rw [show (((100 : Int) : ℚ) / ((49 : Int) : ℚ)) = (100/49 : ℚ) by norm_num]
    have hm2 : roundHalfEven ((100/49 : ℚ) * (2 : ℚ) ^ ((52 : ℤ) - 1)) =
        4595509823847445 := by
      rw [show ((100/49 : ℚ) * (2 : ℚ) ^ ((52 : ℤ) - 1)) =
        (225179981368524800/49 : ℚ) by norm_num]
      have hfl2 : ⌊(225179981368524800/49 : ℚ)⌋ = 4595509823847444 :=
        Int.floor_eq_iff.mpr (by norm_num)
      rw [roundHalfEven_eq_floor_add_one hfl2 (by norm_num)]
      decide
    rw [roundDouble_eq (e := 1) (by norm_num) (by norm_num) (by norm_num) hm2]
    norm_num
  have hp3 : roundDouble (((49 : Int) : ℚ) * (5882252574524729 / 288230376151711744 : ℚ)) =
      9007199254740991 / 9007199254740992 := by
    rw [show (((49 : Int) : ℚ) * (5882252574524729 / 288230376151711744 : ℚ)) =
      (288230376151711721/288230376151711744 : ℚ) by norm_num]
    have hm3 : roundHalfEven ((288230376151711721/288230376151711744 : ℚ) *
        (2 : ℚ) ^ ((52 : ℤ) - -1)) = 9007199254740991 := by
      rw [show ((288230376151711721/288230376151711744 : ℚ) * (2 : ℚ) ^ ((52 : ℤ) - -1)) =
        (288230376151711721/32 : ℚ) by norm_num]
      exact roundHalfEven_eq_floor (Int.floor_eq_iff.mpr (by norm_num)) (by norm_num)
    rw [roundDouble_eq (e := -1) (by norm_num) (by norm_num) (by norm_num) hm3]
    norm_num
  have hpy : pyInt (9007199254740991 / 9007199254740992 : ℚ) = 0 := by
    rw [pyInt_of_nonneg (by norm_num)]
    exact Int.floor_eq_iff.mpr (by norm_num)
  have hA : crop_from_dims_fp 100 49 1 49 =
      some { crop_x := 50, crop_y := 0, crop_width := 0, crop_height := 49,
             original_width := 100, original_height := 49,
             target_width := 0, target_height := 49 } := by
    simp only [crop_from_dims_fp]
    rw [if_neg (by decide), hr1, hr2, if_pos (by norm_num), hp3, hpy]
    decide
  have hfl : ⌊((49 : Int) : ℚ) * (((1 : Int) : ℚ) / ((49 : Int) : ℚ))⌋ = 1 := by
    rw [show (((49 : Int) : ℚ) * (((1 : Int) : ℚ) / ((49 : Int) : ℚ))) = (1 : ℚ) by norm_num]
    exact Int.floor_one
  have hB : (planSpec 100 49 1 49).crop_width = 1 := by
    simp only [planSpec]
    rw [if_pos (by norm_num)]
    exact hfl
  have hC : (planSpec 100 49 1 49).crop_x = 49 := by
    simp only [planSpec]
    rw [if_pos (by norm_num)]
    dsimp only
    rw [hfl]
    rw [show ((((100 : Int) : ℚ) - ((1 : Int) : ℚ)) / 2) = (99/2 : ℚ) by norm_num]
    exact Int.floor_eq_iff.mpr (by norm_num)
  refine ⟨hA, hB, hC, fun hc => ?_⟩
  rw [hA, Option.some.injEq] at hc
  have hcw0 : (planSpec 100 49 1 49).crop_width = 0 := by rw [← hc]
  rw [hB] at hcw0
  exact absurd hcw0 (by decide)

set_option linter.unusedVariables false in
/-- C1 (amended): with all dimensions below `2^53` (so their int→float
conversion is exact) and the four intermediate double roundings exact at
the given input — as holds e.g. whenever all the intermediate values are
representable dyadics — the float program computes exactly the centre-crop
of the spec's floor formulae: wider-than-target sources keep
`cropHeight = sourceHeight` with `cropWidth = ⌊sourceHeight·targetW/targetH⌋`,
`cropX = ⌊(sourceWidth − cropWidth)/2⌋`, `cropY = 0`; otherwise
`cropWidth = sourceWidth`, `cropHeight = ⌊sourceWidth/(targetW/targetH)⌋`,
`cropY = ⌊(sourceHeight − cropHeight)/2⌋`, `cropX = 0`.  Float rounding can
otherwise perturb the result (target `1:49` at source 100×49). -/
theorem crop_fp_matches_spec_when_exact (w h tw th : Int)
    (hw : 0 < w) (hh : 0 < h) (htw : 0 < tw) (hth : 0 < th)
    (hwf : w < 2 ^ 53) (hhf : h < 2 ^ 53) (htwf : tw < 2 ^ 53) (hthf : th < 2 ^ 53)
    (e1 : roundDouble ((tw : ℚ) / (th : ℚ)) = (tw : ℚ) / (th : ℚ))
    (e2 : roundDouble ((w : ℚ) / (h : ℚ)) = (w : ℚ) / (h : ℚ))
    (e3 : roundDouble ((h : ℚ) * ((tw : ℚ) / (th : ℚ))) = (h : ℚ) * ((tw : ℚ) / (th : ℚ)))
    (e4 : roundDouble ((w : ℚ) / ((tw : ℚ) / (th : ℚ))) = (w : ℚ) / ((tw : ℚ) / (th : ℚ))) :
    crop_from_dims_fp w h tw th = some (planSpec w h tw th) :=
  crop_fp_eq_planSpec_of_exact w h tw th hw hh htw hth e1 e2 e3 e4

/-- Witness for the amended C1 at the spec's boundary example 1080×1920 →
9:16 (a no-op crop): every intermediate double value (`9/16`, `1080`,
`1920`) is an exactly representable dyadic. -/
theorem crop_fp_matches_spec_when_exact_witness :
    crop_from_dims_fp 1080 1920 9 16 = some (planSpec 1080 1920 9 16) :=
  crop_fp_matches_spec_when_exact 1080 1920 9 16 (by norm_num) (by norm_num)
    (by norm_num) (by norm_num) (by norm_num) (by norm_num) (by norm_num) (by norm_num)
    (by rw [show (((9 : Int) : ℚ) / ((16 : Int) : ℚ)) = (9/16 : ℚ) by norm_num]
        exact roundDouble_nine_sixteenths)
    (by rw [show (((1080 : Int) : ℚ) / ((1920 : Int) : ℚ)) = (9/16 : ℚ) by norm_num]
        exact roundDouble_nine_sixteenths)
    (by rw [show (((1920 : Int) : ℚ) * (((9 : Int) : ℚ) / ((16 : Int) : ℚ))) = (1080 : ℚ)
          by norm_num]
        exact roundDouble_1080)
    (by rw [show (((1080 : Int) : ℚ) / (((9 : Int) : ℚ) / ((16 : Int) : ℚ))) = (1920 : ℚ)
          by norm_num]
        exact roundDouble_1920)

theorem floor_half_gap_nonneg {a b : Int} (hba : b ≤ a) :
    0 ≤ ⌊((a : ℚ) - (b : ℚ)) / 2⌋ := by
  rw [Int.le_floor]
  have : (b : ℚ) ≤ (a : ℚ) := by exact_mod_cast hba
  push_cast
  linarith

theorem floor_half_gap_le {a b : Int} (hba : b ≤ a) :
    ⌊((a : ℚ) - (b : ℚ)) / 2⌋ + b ≤ a := by
  have h1 : ⌊((a : ℚ) - (b : ℚ)) / 2⌋ ≤ a - b := by
    have hq : ((a : ℚ) - (b : ℚ)) / 2 ≤ ((a - b : ℤ) : ℚ) := by
      have : (b : ℚ) ≤ (a : ℚ) := by exact_mod_cast hba
      push_cast
      linarith
    calc ⌊((a : ℚ) - (b : ℚ)) / 2⌋ ≤ ⌊((a - b : ℤ) : ℚ)⌋ := Int.floor_le_floor hq
      _ = a - b := Int.floor_intCast _
  omega

theorem planSpec_in_frame (w h tw th : Int)
    (hw : 0 < w) (hh : 0 < h) (htw : 0 < tw) (hth : 0 < th) :
    (planSpec w h tw th).crop_width ≤ w ∧ (planSpec w h tw th).crop_height ≤ h ∧
    0 ≤ (planSpec w h tw th).crop_x ∧ 0 ≤ (planSpec w h tw th).crop_y ∧
    (planSpec w h tw th).crop_x + (planSpec w h tw th).crop_width ≤ w ∧
    (planSpec w h tw th).crop_y + (planSpec w h tw th).crop_height ≤ h := by
  have hthq : (0 : ℚ) < (th : ℚ) := by exact_mod_cast hth
  have htwq : (0 : ℚ) < (tw : ℚ) := by exact_mod_cast htw
  have hhq : (0 : ℚ) < (h : ℚ) := by exact_mod_cast hh
  have hwq : (0 : ℚ) < (w : ℚ) := by exact_mod_cast hw
  have hratio : (0 : ℚ) < (tw : ℚ) / (th : ℚ) := div_pos htwq hthq
  simp only [planSpec]
  by_cases hc : (w : ℚ) / (h : ℚ) > (tw : ℚ) / (th : ℚ)
  · rw [if_pos hc]
    dsimp only
    have h1 : (tw : ℚ) * (h : ℚ) < (w : ℚ) * (th : ℚ) :=
      (div_lt_div_iff₀ hthq hhq).mp hc
    have hlt : (h : ℚ) * ((tw : ℚ) / (th : ℚ)) < (w : ℚ) := by
      rw [← mul_div_assoc, div_lt_iff₀ hthq]
      nlinarith
    have hcw_lt : ⌊(h : ℚ) * ((tw : ℚ) / (th : ℚ))⌋ < w := Int.floor_lt.mpr hlt
    have hcw_nonneg : 0 ≤ ⌊(h : ℚ) * ((tw : ℚ) / (th : ℚ))⌋ :=
      Int.le_floor.mpr (by positivity)
    refine ⟨by omega, le_refl h, floor_half_gap_nonneg (by omega), le_refl 0, ?_, by omega⟩
    have := floor_half_gap_le (a := w) (b := ⌊(h : ℚ) * ((tw : ℚ) / (th : ℚ))⌋) (by omega)
    omega
  · rw [if_neg hc]
    dsimp only
    push_neg at hc
    have h1 : (w : ℚ) * (th : ℚ) ≤ (tw : ℚ) * (h : ℚ) :=
      (div_le_div_iff₀ hhq hthq).mp hc
    have hle : (w : ℚ) / ((tw : ℚ) / (th : ℚ)) ≤ (h : ℚ) := by
      rw [div_le_iff₀ hratio, ← mul_div_assoc, le_div_iff₀ hthq]
      nlinarith
    have hch_le : ⌊(w : ℚ) / ((tw : ℚ) / (th : ℚ))⌋ ≤ h := by
      calc ⌊(w : ℚ) / ((tw : ℚ) / (th : ℚ))⌋ ≤ ⌊((h : ℤ) : ℚ)⌋ :=
            Int.floor_le_floor (by exact_mod_cast hle)
        _ = h := Int.floor_intCast _
    have hch_nonneg : 0 ≤ ⌊(w : ℚ) / ((tw : ℚ) / (th : ℚ))⌋ :=
      Int.le_floor.mpr (by positivity)
    refine ⟨le_refl w, hch_le, le_refl 0, floor_half_gap_nonneg hch_le, by omega, ?_⟩
    have := floor_half_gap_le (a := h) (b := ⌊(w : ℚ) / ((tw : ℚ) / (th : ℚ))⌋) hch_le
    omega

/-- C4 counterexample: at source 5505982976679048×7538588498065000 with the
(valid, positive-integer) target aspect equal to the source ratio, the float
program's taller-or-equal branch computes
`new_height = int(width / (width/height)) = sourceHeight + 1` because the
two divisions round up, so `crop_height` exceeds the source height and
`crop_y = (height - new_height) // 2 = -1` lies outside the frame. -/
theorem crop_fp_out_of_frame_at_large_dims :
    crop_from_dims_fp 5505982976679048 7538588498065000
        5505982976679048 7538588498065000 =
      some { crop_x := 0, crop_y := -1, crop_width := 5505982976679048,
             crop_height := 7538588498065001, original_width := 5505982976679048,
             original_height := 7538588498065000, target_width := 5505982976679048,
             target_height := 7538588498065001 } ∧
    ¬(0 ≤ (-1 : Int)) ∧ ¬((7538588498065001 : Int) ≤ 7538588498065000) := by
  have hr : roundDouble (((5505982976679048 : Int) : ℚ) / ((7538588498065000 : Int) : ℚ)) =
      3289308454552847 / 4503599627370496 := by
    rw [show (((5505982976679048 : Int) : ℚ) / ((7538588498065000 : Int) : ℚ)) =
      (688247872084881/942323562258125 : ℚ) by norm_num]
    have hm : roundHalfEven ((688247872084881/942323562258125 : ℚ) *
        (2 : ℚ) ^ ((52 : ℤ) - -1)) = 6578616909105694 := by
      rw [show ((688247872084881/942323562258125 : ℚ) * (2 : ℚ) ^ ((52 : ℤ) - -1)) =
        (6199185720520013735110694141952/942323562258125 : ℚ) by norm_num]
      exact roundHalfEven_eq_floor (Int.floor_eq_iff.mpr (by norm_num)) (by norm_num)
    rw [roundDouble_eq (e := -1) (by norm_num) (by norm_num) (by norm_num) hm]
    norm_num
  have hv : roundDouble (((5505982976679048 : Int) : ℚ) /
      (3289308454552847 / 4503599627370496 : ℚ)) = 7538588498065001 := by
    rw [show (((5505982976679048 : Int) : ℚ) / (3289308454552847/4503599627370496 : ℚ)) =
      (24796742882080054940442776567808/3289308454552847 : ℚ) by norm_num]
    have hm2 : roundHalfEven ((24796742882080054940442776567808/3289308454552847 : ℚ) *
        (2 : ℚ) ^ ((52 : ℤ) - 52)) = 7538588498065001 := by
      rw [show ((24796742882080054940442776567808/3289308454552847 : ℚ) *
        (2 : ℚ) ^ ((52 : ℤ) - 52)) =
        (24796742882080054940442776567808/3289308454552847 : ℚ) by norm_num]
      have hfl : ⌊(24796742882080054940442776567808/3289308454552847 : ℚ)⌋ =
          7538588498065000 := Int.floor_eq_iff.mpr (by norm_num)
      rw [roundHalfEven_eq_floor_add_one hfl (by norm_num)]
      decide
    rw [roundDouble_eq (e := 52) (by norm_num) (by norm_num) (by norm_num) hm2]
    norm_num
  have hpy : pyInt ((7538588498065001 : ℚ)) = 7538588498065001 := by
    rw [pyInt_of_nonneg (by norm_num)]
    exact Int.floor_eq_iff.mpr (by norm_num)
  refine ⟨?_, by decide, by decide⟩
  simp only [crop_from_dims_fp]
  rw [if_neg (by decide), if_neg (lt_irrefl _), hr, hv, hpy]
  decide

set_option linter.unusedVariables false in
/-- C4 (amended): with all dimensions below `2^53` and the intermediate
double roundings exact at the given input, the computed crop rectangle lies
within the source frame; float rounding can otherwise push it out by one
pixel (see the large-dimension counterexample, where `crop_y = -1` and
`crop_height = sourceHeight + 1`). -/
theorem crop_fp_rectangle_in_frame_when_exact (w h tw th : Int) (p : Plan)
    (hw : 0 < w) (hh : 0 < h) (htw : 0 < tw) (hth : 0 < th)
    (hwf : w < 2 ^ 53) (hhf : h < 2 ^ 53) (htwf : tw < 2 ^ 53) (hthf : th < 2 ^ 53)
    (e1 : roundDouble ((tw : ℚ) / (th : ℚ)) = (tw : ℚ) / (th : ℚ))
    (e2 : roundDouble ((w : ℚ) / (h : ℚ)) = (w : ℚ) / (h : ℚ))
    (e3 : roundDouble ((h : ℚ) * ((tw : ℚ) / (th : ℚ))) = (h : ℚ) * ((tw : ℚ) / (th : ℚ)))
    (e4 : roundDouble ((w : ℚ) / ((tw : ℚ) / (th : ℚ))) = (w : ℚ) / ((tw : ℚ) / (th : ℚ)))
    (hp : crop_from_dims_fp w h tw th = some p) :
    p.crop_width ≤ w ∧ p.crop_height ≤ h ∧ 0 ≤ p.crop_x ∧ 0 ≤ p.crop_y ∧
    p.crop_x + p.crop_width ≤ w ∧ p.crop_y + p.crop_height ≤ h := by
  rw [crop_fp_eq_planSpec_of_exact w h tw th hw hh htw hth e1 e2 e3 e4,
    Option.some.injEq] at hp
  subst hp
  exact planSpec_in_frame w h tw th hw hh htw hth

/-- Witness for the amended C4 at source 1080×1920 and target 9:16, where
all intermediate double values are exactly representable. -/
theorem crop_fp_rectangle_in_frame_when_exact_witness :
    (planSpec 1080 1920 9 16).crop_width ≤ 1080 ∧
    (planSpec 1080 1920 9 16).crop_height ≤ 1920 ∧
    0 ≤ (planSpec 1080 1920 9 16).crop_x ∧ 0 ≤ (planSpec 1080 1920 9 16).crop_y ∧
    (planSpec 1080 1920 9 16).crop_x + (planSpec 1080 1920 9 16).crop_width ≤ 1080 ∧
    (planSpec 1080 1920 9 16).crop_y + (planSpec 1080 1920 9 16).crop_height ≤ 1920 :=
  crop_fp_rectangle_in_frame_when_exact 1080 1920 9 16 (planSpec 1080 1920 9 16)
    (by norm_num) (by norm_num) (by norm_num) (by norm_num)
    (by norm_num) (by norm_num) (by norm_num) (by norm_num)
    (by rw [show (((9 : Int) : ℚ) / ((16 : Int) : ℚ)) = (9/16 : ℚ) by norm_num]
        exact roundDouble_nine_sixteenths)
    (by rw [show (((1080 : Int) : ℚ) / ((1920 : Int) : ℚ)) = (9/16 : ℚ) by norm_num]
        exact roundDouble_nine_sixteenths)
    (by rw [show (((1920 : Int) : ℚ) * (((9 : Int) : ℚ) / ((16 : Int) : ℚ))) = (1080 : ℚ)
          by norm_num]
        exact roundDouble_1080)
    (by rw [show (((1080 : Int) : ℚ) / (((9 : Int) : ℚ) / ((16 : Int) : ℚ))) = (1920 : ℚ)
          by norm_num]
        exact roundDouble_1920)
    (crop_fp_eq_planSpec_of_exact 1080 1920 9 16
      (by norm_num) (by norm_num) (by norm_num) (by norm_num)
      (by rw [show (((9 : Int) : ℚ) / ((16 : Int) : ℚ)) = (9/16 : ℚ) by norm_num]
          exact roundDouble_nine_sixteenths)
      (by rw [show (((1080 : Int) : ℚ) / ((1920 : Int) : ℚ)) = (9/16 : ℚ) by norm_num]
          exact roundDouble_nine_sixteenths)
      (by rw [show (((1920 : Int) : ℚ) * (((9 : Int) : ℚ) / ((16 : Int) : ℚ))) = (1080 : ℚ)
            by norm_num]
          exact roundDouble_1080)
      (by rw [show (((1080 : Int) : ℚ) / (((9 : Int) : ℚ) / ((16 : Int) : ℚ))) = (1920 : ℚ)
            by norm_num]
          exact roundDouble_1920))

/-- C5 counterexample: a 1×1 source falls in the wider-than-9:16 branch and
gets `crop_width = int(1 * 9/16) = 0`, so the computed crop width is not
`≥ 1`. -/
theorem crop_width_zero_on_1x1 :
    crop_from_dims 1 1 9 16 =
      some { crop_x := 0, crop_y := 0, crop_width := 0, crop_height := 1,
             original_width := 1, original_height := 1,
             target_width := 0, target_height := 1 } := by
  rw [crop_from_dims_eq_planSpec (by norm_num) (by norm_num) (by norm_num) (by norm_num)]
  simp only [planSpec]
  rw [if_pos (by norm_num)]
  have hcw : ⌊((1 : ℤ) : ℚ) * (((9 : ℤ) : ℚ) / ((16 : ℤ) : ℚ))⌋ = 0 := by
    rw [Int.floor_eq_iff]
    norm_num
  rw [hcw]
  have hcx : ⌊(((1 : ℤ) : ℚ) - ((0 : ℤ) : ℚ)) / 2⌋ = 0 := by
    rw [Int.floor_eq_iff]
    norm_num
  rw [hcx]

/-- C5 (amended): with a source height of at least 2, both computed crop
dimensions are at least 1 pixel for the 9:16 target (the 1×1 source shows
height 1 gives a zero crop width). -/
theorem crop_dims_at_least_one (w h : Int) (p : Plan)
    (hw : 0 < w) (hh : 2 ≤ h)
    (hp : crop_from_dims w h 9 16 = some p) :
    1 ≤ p.crop_width ∧ 1 ≤ p.crop_height := by
  rw [crop_from_dims_eq_planSpec hw (by omega) (by norm_num) (by norm_num),
    Option.some.injEq] at hp
  subst hp
  have hhq : (2 : ℚ) ≤ (h : ℚ) := by exact_mod_cast hh
  have hwq : (1 : ℚ) ≤ (w : ℚ) := by exact_mod_cast hw
  simp only [planSpec]
  by_cases hc : (w : ℚ) / (h : ℚ) > ((9 : ℤ) : ℚ) / ((16 : ℤ) : ℚ)
  · rw [if_pos hc]
    dsimp only
    refine ⟨Int.le_floor.mpr ?_, by omega⟩
    push_cast
    nlinarith
  · rw [if_neg hc]
    dsimp only
    refine ⟨by omega, Int.le_floor.mpr ?_⟩
    push_cast
    rw [le_div_iff₀ (by norm_num : (0 : ℚ) < 9 / 16)]
    linarith

/-- Witness for the amended C5 at source 1920×1080. -/
theorem crop_dims_at_least_one_witness :
    1 ≤ (planSpec 1920 1080 9 16).crop_width ∧
    1 ≤ (planSpec 1920 1080 9 16).crop_height :=
  crop_dims_at_least_one 1920 1080 _ (by norm_num) (by norm_num)
    (crop_from_dims_eq_planSpec (by norm_num) (by norm_num) (by norm_num) (by norm_num))

theorem find_video_dims_eq_find? (l : List StreamInfo) :
    find_video_dims l =
      match l.find? is_video_with_dims with
      | some s => (s.width, s.height)
      | none => (16, 9) := by
  induction l with
  | nil => rfl
  | cons s rest ih =>
    by_cases hs : is_video_with_dims s
    · simp [find_video_dims, List.find?_cons_of_pos, hs]
    · simp only [Bool.not_eq_true] at hs
      simp [find_video_dims, List.find?_cons_of_neg, hs, ih]

/-- C10 counterexample: a lone video stream with `width = -1`, `height = 2`
has no positive width, so the claim demands the `(16, 9)` default; the code
tests only truthiness (nonzero) and returns `(-1, 2)`. -/
theorem detect_negative_width_stream :
    detect_aspect_ratio ⟨[⟨"video", -1, 2⟩]⟩ = (-1, 2) ∧
    detect_aspect_ratio ⟨[⟨"video", -1, 2⟩]⟩ ≠ (16, 9) := by
  constructor <;> decide

/-- C10 (amended): `detect_aspect_ratio` returns the dimensions of the first
stream whose `codec_type` is `'video'` and whose width and height are both
nonzero, and the `(16, 9)` default when no such stream exists. -/
theorem detect_aspect_ratio_first_nonzero (info : VideoInfo) :
    detect_aspect_ratio info =
      match info.streams.find? is_video_with_dims with
      | some s => (s.width, s.height)
      | none => (16, 9) :=
  find_video_dims_eq_find? info.streams

theorem crop_from_dims_16_9 :
    crop_from_dims 16 9 9 16 =
      some { crop_x := 5, crop_y := 0, crop_width := 5, crop_height := 9,
             original_width := 16, original_height := 9,
             target_width := 5, target_height := 9 } := by
  rw [crop_from_dims_eq_planSpec (by norm_num) (by norm_num) (by norm_num) (by norm_num)]
  simp only [planSpec]
  rw [if_pos (by norm_num)]
  have hcw : ⌊((9 : ℤ) : ℚ) * (((9 : ℤ) : ℚ) / ((16 : ℤ) : ℚ))⌋ = 5 := by
    rw [Int.floor_eq_iff]
    norm_num
  rw [hcw]
  have hcx : ⌊(((16 : ℤ) : ℚ) - ((5 : ℤ) : ℚ)) / 2⌋ = 5 := by
    rw [Int.floor_eq_iff]
    norm_num
  rw [hcx]

/-- C2 counterexample: a metadata probe that succeeds but reports zero
streams does not yield the 1080×1920 fallback dictionary — the code
substitutes the default dimensions `(16, 9)` and computes an ordinary plan
whose output target is 5×9. -/
theorem zero_streams_not_fallback :
    calculate_crop_parameters (Except.ok ⟨[]⟩) 9 16 =
      PlanResult.computed { crop_x := 5, crop_y := 0, crop_width := 5,
                            crop_height := 9, original_width := 16,
                            original_height := 9, target_width := 5,
                            target_height := 9 } ∧
    (calculate_crop_parameters (Except.ok ⟨[]⟩) 9 16).targetDims ≠ (1080, 1920) := by
  have h1 : calculate_crop_parameters (Except.ok ⟨[]⟩) 9 16 =
      PlanResult.computed { crop_x := 5, crop_y := 0, crop_width := 5,
                            crop_height := 9, original_width := 16,
                            original_height := 9, target_width := 5,
                            target_height := 9 } := by
    simp only [calculate_crop_parameters, detect_aspect_ratio, find_video_dims]
    rw [crop_from_dims_16_9]
  refine ⟨h1, ?_⟩
  rw [h1]
  simp [PlanResult.targetDims]

/-- C2 (amended): an exception while obtaining or parsing the metadata
(probe failure, malformed JSON) yields the fixed 1080×1920 fallback
dictionary; metadata without a usable video stream (no `streams` entry of
`codec_type 'video'` with nonzero dimensions — in particular zero streams or
zero-valued dimensions) instead yields the default source dimensions 16×9
and a normally computed 5×9 plan.  In neither case is a hard failure
raised. -/
theorem planner_fallback_behaviour (tw th : Int) (info : VideoInfo)
    (hnone : info.streams.find? is_video_with_dims = none) :
    calculate_crop_parameters (Except.error ()) tw th = PlanResult.fallback ∧
    calculate_crop_parameters (Except.ok info) 9 16 =
      PlanResult.computed { crop_x := 5, crop_y := 0, crop_width := 5,
                            crop_height := 9, original_width := 16,
                            original_height := 9, target_width := 5,
                            target_height := 9 } := by
  refine ⟨rfl, ?_⟩
  have hd : detect_aspect_ratio info = (16, 9) := by
    rw [detect_aspect_ratio, find_video_dims_eq_find?, hnone]
  simp only [calculate_crop_parameters, hd]
  rw [crop_from_dims_16_9]

/-- Witness for the amended C2 at a probe with zero streams. -/
theorem planner_fallback_behaviour_witness :
    calculate_crop_parameters (Except.error ()) 9 16 = PlanResult.fallback ∧
    calculate_crop_parameters (Except.ok ⟨[]⟩) 9 16 =
      PlanResult.computed { crop_x := 5, crop_y := 0, crop_width := 5,
                            crop_height := 9, original_width := 16,
                            original_height := 9, target_width := 5,
                            target_height := 9 } :=
  planner_fallback_behaviour 9 16 ⟨[]⟩ rfl

/-- C3: with the transcoder exiting 0 and an existing but 0-byte output
file, `process_to_9_16` reports success — it checks only that the file
exists and never invokes `validate_output`, which rejects the same state.
This exhibits the divergence between the code and the claimed
`OutputInvalid` downgrade. -/
theorem zero_byte_output_reported_success :
    process_to_9_16
        { exitZero := true, outputExists := true, outputSize := 0,
          outputProbe := Except.ok ⟨[]⟩ } = true ∧
    validate_output
        { exitZero := true, outputExists := true, outputSize := 0,
          outputProbe := Except.ok ⟨[]⟩ } = false := by
  exact ⟨rfl, rfl⟩

/-- C6: `heal_tool` probes first; whenever the probe reports the tool
available it returns `True` at once with no installer invocation (hence no
network I/O — a repeated call in the same healthy environment behaves the
same); only when the probe reports unavailable does it run the matching
installer and return that installer's boolean result. -/
theorem heal_tool_probe_first (env : SysEnv) (name : String) :
    ((check_tool_availability env name).1 = true →
      heal_tool env name = (true, [HealStep.probe name])) ∧
    ((check_tool_availability env name).1 = false →
      (name = "ffmpeg" →
        heal_tool env name =
          (env.installFfmpegOk, [HealStep.probe name, HealStep.install "ffmpeg"])) ∧
      (name = "yt-dlp" →
        heal_tool env name =
          (env.installYtDlpOk, [HealStep.probe name, HealStep.install "yt-dlp"]))) := by
  refine ⟨fun h => ?_, fun h => ⟨fun hn => ?_, fun hn => ?_⟩⟩
  · simp [heal_tool, h]
  · subst hn
    simp [heal_tool, h]
  · subst hn
    simp [heal_tool, h]

/-- Witness for C6 in an environment whose probes all succeed. -/
theorem heal_tool_probe_first_witness :
    heal_tool ⟨fun _ => true, fun _ => true, true, true⟩ "ffmpeg" =
      (true, [HealStep.probe "ffmpeg"]) :=
  (heal_tool_probe_first ⟨fun _ => true, fun _ => true, true, true⟩ "ffmpeg").1 (by decide)

/-- C7: `heal_all_tools` returns one entry per registered tool, each entry
holding exactly `heal_tool`'s boolean for that tool, in every environment —
including environments where some tools fail, so one tool's failure never
prevents attempting the others, and the total function raises nothing. -/
theorem heal_all_tools_per_tool (env : SysEnv) :
    (heal_all_tools env).map Prod.fst = registered_tools ∧
    ∀ name, name ∈ registered_tools →
      (heal_all_tools env).lookup name = some (heal_tool env name).1 := by
  constructor
  · simp [heal_all_tools, registered_tools]
  · intro name hn
    simp only [registered_tools, List.mem_cons, List.not_mem_nil, or_false] at hn
    rcases hn with rfl | rfl
    · simp [heal_all_tools, registered_tools, List.lookup]
    · simp [heal_all_tools, registered_tools, List.lookup]

/-- Witness for C7 in an environment where ffmpeg is broken (probe and
installer fail) while yt-dlp is healthy. -/
theorem heal_all_tools_per_tool_witness :
    (heal_all_tools ⟨fun n => n == "yt-dlp", fun _ => false, false, true⟩).lookup "ffmpeg" =
      some (heal_tool ⟨fun n => n == "yt-dlp", fun _ => false, false, true⟩ "ffmpeg").1 :=
  (heal_all_tools_per_tool ⟨fun n => n == "yt-dlp", fun _ => false, false, true⟩).2
    "ffmpeg" (by decide)

/-- C8: an empty or placeholder expected digest makes `verify_checksum`
return `true` unconditionally, for every filesystem (so without reading or
hashing anything); otherwise it returns `true` exactly when the computed
digest of the file equals the expected digest. -/
theorem verify_checksum_spec {σ : Type} (hinit : σ) (hupdate : σ → List Nat → σ)
    (hexdigest : σ → String) (fs : String → Option (List Nat)) (path expected : String) :
    ((expected = "" ∨ expected = "sha256:...") →
      verify_checksum hinit hupdate hexdigest fs path expected = true) ∧
    (¬(expected = "" ∨ expected = "sha256:...") →
      (verify_checksum hinit hupdate hexdigest fs path expected = true ↔
        calculate_file_checksum hinit hupdate hexdigest fs path "sha256" = expected)) := by
  constructor
  · intro h
    simp [verify_checksum, h]
  · intro h
    simp [verify_checksum, h]

/-- Witness for C8: the placeholder digest of the shipped tool registry is
accepted on a filesystem where the file does not even exist. -/
theorem verify_checksum_spec_witness :
    verify_checksum () (fun _ _ => ()) (fun _ => "h") (fun _ => none)
      "tools/ffmpeg.zip" "sha256:..." = true :=
  (verify_checksum_spec () (fun _ _ => ()) (fun _ => "h") (fun _ => none)
    "tools/ffmpeg.zip" "sha256:...").1 (Or.inr rfl)

theorem foldl_chunkBytes {σ : Type} (hupdate : σ → List Nat → σ)
    (hnil : ∀ s, hupdate s [] = s)
    (happ : ∀ s a b, hupdate (hupdate s a) b = hupdate s (a ++ b)) :
    ∀ (l : List Nat) (s : σ), (chunkBytes l).foldl hupdate s = hupdate s l := by
  intro l
  induction l using chunkBytes.induct with
  | case1 =>
    intro s
    simp [chunkBytes, hnil]
  | case2 b bs ih =>
    intro s
    rw [chunkBytes]
    simp only [List.foldl_cons]
    rw [ih, happ, List.take_append_drop]

/-- C9 counterexample: on a filesystem where the file cannot be read,
`calculate_file_checksum` does not propagate any error — the exception is
caught internally and the empty string is returned as an ordinary value. -/
theorem checksum_unreadable_returns_empty :
    calculate_file_checksum () (fun _ _ => ()) (fun _ => "d41d8cd9")
      (fun _ => none) "missing.bin" "sha256" = "" := rfl

/-- C9 (amended): when the file cannot be read, `calculate_file_checksum`
returns the empty string (the caught-exception path) rather than failing;
when it can be read, the file is streamed through the hash in fixed 4096-byte
chunks and the result is the algorithm-prefixed digest of the whole
contents (for any hash whose update is compatible with concatenation). -/
theorem calculate_file_checksum_spec {σ : Type} (hinit : σ)
    (hupdate : σ → List Nat → σ) (hexdigest : σ → String)
    (fs : String → Option (List Nat)) (path : String)
    (hnil : ∀ s, hupdate s [] = s)
    (happ : ∀ s a b, hupdate (hupdate s a) b = hupdate s (a ++ b)) :
    (fs path = none → calculate_file_checksum hinit hupdate hexdigest fs path "sha256" = "") ∧
    (∀ c, fs path = some c →
      calculate_file_checksum hinit hupdate hexdigest fs path "sha256" =
        "sha256:" ++ hexdigest (hupdate hinit c)) := by
  constructor
  · intro h
    simp [calculate_file_checksum, h]
  · intro c hc
    simp only [calculate_file_checksum, hc]
    rw [foldl_chunkBytes hupdate hnil happ]
    rfl

/-- Witness for the amended C9 with a concatenation hash on a one-byte file. -/
theorem calculate_file_checksum_spec_witness :
    calculate_file_checksum ([] : List Nat) (· ++ ·) (fun l => toString l.length)
      (fun _ => some [7]) "f.bin" "sha256" =
      "sha256:" ++ toString (([] : List Nat) ++ [7]).length :=
  (calculate_file_checksum_spec ([] : List Nat) (· ++ ·) (fun l => toString l.length)
    (fun _ => some [7]) "f.bin"
    (fun s => by simp) (fun s a b => by simp)).2 [7] rfl

end TrendClip
